import Mathlib

/-!
Verification of the outbox-relay pipeline of the event-driven demo.

Two components are embedded, faithfully to the TypeScript sources:

* the Idempotent Materializer (projector lambda): `processEvent` and the
  SQS batch `runHandler`, over a state holding the work-order projection
  table, the processed-events (dedupe) table and a write log;
* the Relay Publisher (publisher lambda): `selectUnpublished`,
  `mkEnvelope`, `relayStep` and the cron `handler`, over a state holding
  the outbox table and the SNS bus.

Wall-clock reads (`new Date().toISOString()`, `Date.now()`, SQL `NOW()`)
and date normalisation (`new Date(x).toISOString()`) are supplied by an
environment record, one per invocation; per-record infrastructure
failures (SNS send throwing, the UPDATE throwing) are supplied by
failure oracles in the publisher's environment.
-/

namespace EventDriven

namespace Materializer

/-- The `WorkOrderData` payload carried in a `WorkOrderCreated` envelope
(`envelope.data`), snake_case fields as produced by the write side. -/
structure WorkOrderData where
  id : String
  org_id : String
  customer_id : String
  status : String
  title : String
  description : Option String
  address : Option String
  scheduled_at : Option String
  created_at : String
  updated_at : String
deriving DecidableEq, Repr

/-- The event envelope as consumed by the projector lambda. -/
structure EventEnvelope where
  id : String
  type : String
  version : Nat
  occurredAt : String
  aggregateId : String
  aggregateType : String
  data : WorkOrderData
deriving DecidableEq, Repr

/-- A row of the work-order projection table (`WorkOrderProjection`). -/
structure WorkOrderProjection where
  pk : String
  sk : String
  entityType : String
  workOrderId : String
  orgId : String
  customerId : String
  status : String
  title : String
  description : Option String
  address : Option String
  scheduledAt : Option String
  createdAt : String
  updatedAt : String
  projectedAt : String
  sourceEventId : String
  sourceEventType : String
deriving DecidableEq, Repr

/-- A row of the processed-events (dedupe) table (`ProcessedEvent`). -/
structure ProcessedEvent where
  eventId : String
  eventType : String
  processedAt : String
  ttl : Nat
deriving DecidableEq, Repr

/-- Per-invocation environment of the projector lambda: `normTs` models
`new Date(x).toISOString()` applied to a stored timestamp, `nowIso`
models `new Date().toISOString()` and `nowMs` models `Date.now()`. -/
structure MatEnv where
  normTs : String → String
  nowIso : String
  nowMs : Nat

/-- A write performed against DynamoDB (the only mutations `processEvent`
issues are puts). -/
inductive MatOp where
  | putProjection (pk sk : String)
  | putDedupe (eventId : String)
deriving DecidableEq, Repr

/-- State of the two DynamoDB tables, plus a log of the puts issued
(most recent first). -/
structure MatState where
  workOrders : String → String → Option WorkOrderProjection
  processed : String → Option ProcessedEvent
  log : List MatOp

/-- The `WorkOrderProjection` item `processEvent` builds for a
`WorkOrderCreated` envelope (the `dbItem` literal in the source). -/
def projectionItem (env : MatEnv) (e : EventEnvelope) : WorkOrderProjection :=
  { pk := "ORG#" ++ e.data.org_id
    sk := "STATUS#" ++ e.data.status ++ "#TS#" ++ env.normTs e.data.created_at
            ++ "#WO#" ++ e.data.id
    address := e.data.address
    createdAt := env.normTs e.data.created_at
    customerId := e.data.customer_id
    description := e.data.description
    entityType := e.aggregateType
    orgId := e.data.org_id
    projectedAt := env.nowIso
    scheduledAt := e.data.scheduled_at
    sourceEventId := e.id
    sourceEventType := e.type
    status := e.data.status
    title := e.data.title
    updatedAt := env.normTs e.data.updated_at
    workOrderId := e.data.id }

/-- The `ProcessedEvent` item `processEvent` builds (ttl is
`Math.floor(Date.now() / 1000) + 7 * 24 * 60 * 60`). -/
def dedupeItem (env : MatEnv) (e : EventEnvelope) : ProcessedEvent :=
  { eventId := e.id
    eventType := e.type
    processedAt := env.nowIso
    ttl := env.nowMs / 1000 + 7 * 24 * 60 * 60 }

/-- `processEvent` of the projector lambda: get the dedupe row for
`envelope.id` and return unchanged if present; otherwise, for a
`WorkOrderCreated` envelope, put the projection item and then the dedupe
item. For any other type nothing is written (the dedupe put sits inside
the `WorkOrderCreated` branch in the source). -/
def processEvent (env : MatEnv) (e : EventEnvelope) (s : MatState) : MatState :=
  if (s.processed e.id).isSome then s
  else if e.type = "WorkOrderCreated" then
    let item := projectionItem env e
    let s1 : MatState :=
      { workOrders := fun pk sk =>
          if pk = item.pk ∧ sk = item.sk then some item else s.workOrders pk sk
        processed := s.processed
        log := MatOp.putProjection item.pk item.sk :: s.log }
    { workOrders := s1.workOrders
      processed := fun k =>
        if k = e.id then some (dedupeItem env e) else s1.processed k
      log := MatOp.putDedupe e.id :: s1.log }
  else s

/-- Sequential application of a list of envelopes. -/
def applyAll (env : MatEnv) (es : List EventEnvelope) (s : MatState) : MatState :=
  es.foldl (fun t e => processEvent env e t) s

/-- The SQS `handler` of the projector lambda. Each delivered record is
modelled by the outcome of parsing its body: `none` models a record
whose body fails to parse (`JSON.parse` throws). The handler processes
records in order; on the first throwing record it re-throws, ending the
invocation with the state reached so far (earlier DynamoDB writes
persist) and `false` for an invocation that raised (`true` models the
normal `statusCode 200` return). -/
def runHandler (env : MatEnv) : List (Option EventEnvelope) → MatState → MatState × Bool
  | [], s => (s, true)
  | none :: _, s => (s, false)
  | some e :: rs, s => runHandler env rs (processEvent env e s)

end Materializer

namespace Publisher

/-- An outbox row (`OutboxEvent`). `occurred_at` and `published_at` are
SQL timestamps, modelled as abstract instants (`Nat`); `payload` is the
opaque JSONB document; `id` is the table's UUID primary key. -/
structure OutboxEvent where
  id : String
  event_type : String
  aggregate_id : String
  aggregate_type : String
  payload : String
  occurred_at : Nat
  published_at : Option Nat
  version : Nat
  trace_id : String
deriving DecidableEq, Repr

/-- The event envelope the publisher puts on the bus (`EventEnvelope`
with `traceId`). -/
structure PubEnvelope where
  id : String
  type : String
  version : Nat
  occurredAt : String
  aggregateId : String
  aggregateType : String
  data : String
  traceId : String
deriving DecidableEq, Repr

/-- Per-invocation environment of the publisher lambda: `toISO` models
`new Date(x).toISOString()`, `dbNow` models SQL `NOW()`, and the two
oracles say, per outbox row id, whether the SNS send throws and whether
the subsequent UPDATE throws in this invocation. -/
structure PubEnv where
  toISO : Nat → String
  dbNow : Nat
  snsFails : String → Bool
  updateFails : String → Bool

/-- State the publisher acts on: the outbox table and the bus, the
latter as the list of `(message, eventType attribute)` pairs handed to
SNS so far, in send order. -/
structure PubState where
  outbox : List OutboxEvent
  bus : List (PubEnvelope × String)
deriving DecidableEq, Repr

/-- Insert a row into a list sorted by ascending `occurred_at`. -/
def insertByOccurred (r : OutboxEvent) : List OutboxEvent → List OutboxEvent
  | [] => [r]
  | x :: xs =>
    if x.occurred_at ≤ r.occurred_at then x :: insertByOccurred r xs
    else r :: x :: xs

/-- Stable sort by ascending `occurred_at` (the `ORDER BY occurred_at
ASC` of the select). -/
def sortByOccurred : List OutboxEvent → List OutboxEvent
  | [] => []
  | x :: xs => insertByOccurred x (sortByOccurred xs)

/-- The publisher's select: `SELECT * FROM outbox WHERE published_at IS
NULL ORDER BY occurred_at ASC LIMIT 10`. -/
def selectUnpublished (outbox : List OutboxEvent) : List OutboxEvent :=
  (sortByOccurred (outbox.filter (fun r => r.published_at.isNone))).take 10

/-- The envelope built for a row (the `eventEnvelope` literal in the
source). -/
def mkEnvelope (env : PubEnv) (row : OutboxEvent) : PubEnvelope :=
  { aggregateId := row.aggregate_id
    aggregateType := row.aggregate_type
    data := row.payload
    id := row.id
    occurredAt := env.toISO row.occurred_at
    type := row.event_type
    version := row.version
    traceId := row.trace_id }

/-- `UPDATE outbox SET published_at = NOW() WHERE id = $1`. -/
def markPublished (t : Nat) (i : String) (outbox : List OutboxEvent) : List OutboxEvent :=
  outbox.map (fun r => if r.id = i then { r with published_at := some t } else r)

/-- One iteration of the publisher's per-row loop, under the `try`: if
the SNS send throws nothing has happened; otherwise the envelope is on
the bus, and unless the UPDATE throws the row is marked published. The
`catch` only logs, so the loop always continues. -/
def relayStep (env : PubEnv) (s : PubState) (row : OutboxEvent) : PubState :=
  if env.snsFails row.id then s
  else
    let s1 : PubState := { s with bus := s.bus ++ [(mkEnvelope env row, row.event_type)] }
    if env.updateFails row.id then s1
    else { s1 with outbox := markPublished env.dbNow row.id s1.outbox }

/-- What the publisher invocation returns: `{statusCode: 204}` when the
select is empty, else `{statusCode: 200, message: "Processed N
events"}`. -/
structure PubResult where
  statusCode : Nat
  message : Option String
deriving DecidableEq, Repr

/-- The publisher lambda `handler`, from the point where the batch
select has succeeded: select the unpublished rows, return 204 if there
are none, else run the per-row loop and return 200 with the count of
rows selected. -/
def handler (env : PubEnv) (s : PubState) : PubState × PubResult :=
  let selected := selectUnpublished s.outbox
  if selected.isEmpty then (s, { statusCode := 204, message := none })
  else
    (selected.foldl (relayStep env) s,
     { statusCode := 200
       message := some ("Processed " ++ toString selected.length ++ " events") })

/-- A sequence of publisher invocations (cron ticks), each with its own
environment. -/
def runAll (envs : List PubEnv) (s : PubState) : PubState :=
  envs.foldl (fun t env => (handler env t).1) s

end Publisher

/-! Concrete instances used to instantiate the theorems below. -/

open Materializer Publisher

/-- A projector environment with identity date normalisation. -/
def envW : MatEnv :=
  { normTs := fun x => x
    nowIso := "2026-01-01T00:00:00.000Z"
    nowMs := 1767225600000 }

/-- A concrete work-order payload. -/
def dataW : WorkOrderData :=
  { id := "w1"
    org_id := "o1"
    customer_id := "c1"
    status := "OPEN"
    title := "Fix sink"
    description := none
    address := none
    scheduled_at := none
    created_at := "2026-01-01T00:00:00.000Z"
    updated_at := "2026-01-01T00:00:00.000Z" }

/-- A concrete `WorkOrderCreated` envelope. -/
def envelopeW : EventEnvelope :=
  { id := "e1"
    type := "WorkOrderCreated"
    version := 1
    occurredAt := "2026-01-01T00:00:00.000Z"
    aggregateId := "w1"
    aggregateType := "WorkOrder"
    data := dataW }

/-- A concrete envelope of a type the projector has no rule for. -/
def envelopeU : EventEnvelope :=
  { id := "u1"
    type := "WorkOrderStatusChanged"
    version := 1
    occurredAt := "2026-01-01T00:00:00.000Z"
    aggregateId := "w1"
    aggregateType := "WorkOrder"
    data := dataW }

/-- An unknown-type envelope and a `WorkOrderCreated` envelope sharing
the id `"x"`. -/
def envelopeX1 : EventEnvelope :=
  { id := "x"
    type := "SomethingElse"
    version := 1
    occurredAt := "2026-01-01T00:00:00.000Z"
    aggregateId := "w1"
    aggregateType := "WorkOrder"
    data := dataW }

/-- See `envelopeX1`. -/
def envelopeX2 : EventEnvelope :=
  { id := "x"
    type := "WorkOrderCreated"
    version := 2
    occurredAt := "2026-01-01T00:00:00.000Z"
    aggregateId := "w1"
    aggregateType := "WorkOrder"
    data := dataW }

/-- Empty DynamoDB tables. -/
def s0 : MatState :=
  { workOrders := fun _ _ => none
    processed := fun _ => none
    log := [] }

/-- A concrete unpublished outbox row. -/
def rowA : OutboxEvent :=
  { id := "a"
    event_type := "WorkOrderCreated"
    aggregate_id := "w1"
    aggregate_type := "WorkOrder"
    payload := "payload-json"
    occurred_at := 1
    published_at := none
    version := 1
    trace_id := "t-a" }

/-- A second concrete unpublished outbox row, later than `rowA`. -/
def rowB : OutboxEvent :=
  { id := "b"
    event_type := "WorkOrderCreated"
    aggregate_id := "w2"
    aggregate_type := "WorkOrder"
    payload := "payload-json"
    occurred_at := 2
    published_at := none
    version := 1
    trace_id := "t-b" }

/-- A concrete outbox row that is already published. -/
def rowP : OutboxEvent :=
  { id := "p"
    event_type := "WorkOrderCreated"
    aggregate_id := "w3"
    aggregate_type := "WorkOrder"
    payload := "payload-json"
    occurred_at := 0
    published_at := some 5
    version := 1
    trace_id := "t-p" }

/-- Outbox with two unpublished rows, empty bus. -/
def pubS0 : PubState := { outbox := [rowA, rowB], bus := [] }

/-- Outbox with one published and one unpublished row, empty bus. -/
def pubS1 : PubState := { outbox := [rowP, rowB], bus := [] }

/-- A publisher invocation in which every SNS send and UPDATE succeeds. -/
def pubEnvOk : PubEnv :=
  { toISO := fun n => toString n
    dbNow := 100
    snsFails := fun _ => false
    updateFails := fun _ => false }

/-- A publisher invocation in which the SNS send for row `"a"` throws
and everything else succeeds. -/
def pubEnvFail : PubEnv :=
  { toISO := fun n => toString n
    dbNow := 100
    snsFails := fun i => i == "a"
    updateFails := fun _ => false }

/-! Helper lemmas about the Materializer. -/

/-- `processEvent` never evicts a projection row: each branch either
leaves `workOrders` unchanged or overwrites a single key with `some`. -/
theorem processEvent_mono_workOrders (env : MatEnv) (e : EventEnvelope) (s : MatState)
    (pk sk : String) (h : (s.workOrders pk sk).isSome = true) :
    ((processEvent env e s).workOrders pk sk).isSome = true := by
  unfold processEvent
  split
  · exact h
  · split
    · by_cases hc : pk = (projectionItem env e).pk ∧ sk = (projectionItem env e).sk
      · simp [hc]
      · simp [hc, h]
    · exact h

/-- When a dedupe row exists for the envelope's id, `processEvent`
returns the state unchanged. -/
theorem processEvent_of_processed (env : MatEnv) (e : EventEnvelope) (s : MatState)
    (h : (s.processed e.id).isSome = true) : processEvent env e s = s := by
  unfold processEvent
  rw [if_pos h]

/-! Claim theorems about the Materializer. -/

/-- C1: submitting the same `WorkOrderCreated` envelope to `processEvent`
twice, sequentially, is idempotent: the first apply writes exactly one
projection row and one dedupe row (the log gains exactly those two
puts), and the second apply finds the dedupe row and returns the state
unchanged, so the final state — in particular at that entity's key — is
that of applying the envelope exactly once. -/
theorem c1_idempotent_replay (env1 env2 : MatEnv) (e : EventEnvelope) (s : MatState)
    (htype : e.type = "WorkOrderCreated") (hnew : s.processed e.id = none) :
    processEvent env2 e (processEvent env1 e s) = processEvent env1 e s
    ∧ (processEvent env1 e s).processed e.id = some (dedupeItem env1 e)
    ∧ (processEvent env1 e s).workOrders (projectionItem env1 e).pk (projectionItem env1 e).sk
        = some (projectionItem env1 e)
    ∧ (processEvent env1 e s).log
        = MatOp.putDedupe e.id
            :: MatOp.putProjection (projectionItem env1 e).pk (projectionItem env1 e).sk
            :: s.log := by
  have hp : (processEvent env1 e s).processed e.id = some (dedupeItem env1 e) := by
    simp [processEvent, hnew, htype]
  refine ⟨?_, hp, ?_, ?_⟩
  · exact processEvent_of_processed env2 e _ (by rw [hp]; rfl)
  · simp [processEvent, hnew, htype]
  · simp [processEvent, hnew, htype]

/-- Witness for C1 at a concrete envelope and empty tables. -/
theorem c1_idempotent_replay_witness :
    envelopeW.type = "WorkOrderCreated" ∧ s0.processed envelopeW.id = none ∧
    (processEvent envW envelopeW (processEvent envW envelopeW s0) = processEvent envW envelopeW s0
     ∧ (processEvent envW envelopeW s0).processed envelopeW.id = some (dedupeItem envW envelopeW)
     ∧ (processEvent envW envelopeW s0).workOrders (projectionItem envW envelopeW).pk
          (projectionItem envW envelopeW).sk = some (projectionItem envW envelopeW)
     ∧ (processEvent envW envelopeW s0).log
         = MatOp.putDedupe envelopeW.id
             :: MatOp.putProjection (projectionItem envW envelopeW).pk (projectionItem envW envelopeW).sk
             :: s0.log) :=
  ⟨rfl, rfl, c1_idempotent_replay envW envW envelopeW s0 rfl rfl⟩

/-- C3 counterexample: for a concrete envelope whose type is not
`WorkOrderCreated`, `processEvent` on empty tables writes no
`DedupeRecord` for `envelope.id` (and performs no write at all),
contrary to the claim that the dedupe row is still written. -/
theorem c3_unknown_type_counterexample :
    envelopeU.type ≠ "WorkOrderCreated"
    ∧ (processEvent envW envelopeU s0).processed envelopeU.id = none
    ∧ (processEvent envW envelopeU s0).log = [] := by decide

/-- C3 amended: when `processEvent` receives an envelope whose type is
not a known projection rule, it skips the projection write AND the
dedupe write — the dedupe put sits inside the `WorkOrderCreated` branch
— returning the state unchanged; the unknown event is still tolerated
(no error), just not recorded as processed. -/
theorem c3_unknown_type_no_writes (env : MatEnv) (e : EventEnvelope) (s : MatState)
    (h : e.type ≠ "WorkOrderCreated") : processEvent env e s = s := by
  unfold processEvent
  split
  · rfl
  · simp [h]

/-- Witness for the amended C3 at a concrete envelope. -/
theorem c3_unknown_type_no_writes_witness :
    envelopeU.type ≠ "WorkOrderCreated" ∧ processEvent envW envelopeU s0 = s0 :=
  ⟨by decide, c3_unknown_type_no_writes envW envelopeU s0 (by decide)⟩

/-- C4 counterexample: in a batch whose first record is malformed
(its body fails to parse) and whose second is a valid
`WorkOrderCreated` envelope, the handler raises (the invocation fails)
and the second message is never processed — neither its projection row
nor its dedupe row exists afterwards — contrary to the claim that other
messages of the batch are still processed. -/
theorem c4_batch_abort_counterexample :
    (runHandler envW [none, some envelopeW] s0).2 = false
    ∧ (runHandler envW [none, some envelopeW] s0).1.processed envelopeW.id = none
    ∧ (runHandler envW [none, some envelopeW] s0).1.workOrders
        (projectionItem envW envelopeW).pk (projectionItem envW envelopeW).sk = none := by
  decide

/-- C4 amended: a record that fails to apply makes the handler re-throw,
so the invocation fails and the bus will redeliver; records processed
before the failing one keep their effects, but the records after it in
the same batch are not processed in that invocation (the whole batch
delivery fails, not only the poison message's). A batch with no failing
record is processed in full and the handler returns normally. -/
theorem c4_failure_aborts_rest_of_batch (env : MatEnv) (gs : List EventEnvelope)
    (rest : List (Option EventEnvelope)) (s : MatState) :
    runHandler env (gs.map some ++ none :: rest) s = (applyAll env gs s, false)
    ∧ runHandler env (gs.map some) s = (applyAll env gs s, true) := by
  induction gs generalizing s with
  | nil => exact ⟨rfl, rfl⟩
  | cons g gs ih =>
    exact ⟨(ih (processEvent env g s)).1, (ih (processEvent env g s)).2⟩

/-- C8: for a `WorkOrderCreated` envelope not yet deduped, `processEvent`
writes the projection row at `pk = "ORG#<org_id>"`,
`sk = "STATUS#<status>#TS#<normalized created_at>#WO#<id>"`, and the row
carries the denormalised work-order fields plus `projectedAt`,
`sourceEventId = envelope.id` and `sourceEventType = envelope.type`. -/
theorem c8_projection_key_scheme (env : MatEnv) (e : EventEnvelope) (s : MatState)
    (htype : e.type = "WorkOrderCreated") (hnew : s.processed e.id = none) :
    (processEvent env e s).workOrders ("ORG#" ++ e.data.org_id)
        ("STATUS#" ++ e.data.status ++ "#TS#" ++ env.normTs e.data.created_at
          ++ "#WO#" ++ e.data.id)
      = some (projectionItem env e)
    ∧ (projectionItem env e).projectedAt = env.nowIso
    ∧ (projectionItem env e).sourceEventId = e.id
    ∧ (projectionItem env e).sourceEventType = e.type
    ∧ (projectionItem env e).workOrderId = e.data.id
    ∧ (projectionItem env e).orgId = e.data.org_id
    ∧ (projectionItem env e).customerId = e.data.customer_id
    ∧ (projectionItem env e).status = e.data.status
    ∧ (projectionItem env e).title = e.data.title
    ∧ (projectionItem env e).description = e.data.description
    ∧ (projectionItem env e).address = e.data.address
    ∧ (projectionItem env e).scheduledAt = e.data.scheduled_at
    ∧ (projectionItem env e).createdAt = env.normTs e.data.created_at
    ∧ (projectionItem env e).updatedAt = env.normTs e.data.updated_at := by
  refine ⟨?_, rfl, rfl, rfl, rfl, rfl, rfl, rfl, rfl, rfl, rfl, rfl, rfl, rfl⟩
  simp [processEvent, hnew, htype, projectionItem]

/-- Witness for C8 at a concrete envelope and empty tables. -/
theorem c8_projection_key_scheme_witness :
    envelopeW.type = "WorkOrderCreated" ∧ s0.processed envelopeW.id = none ∧
    (processEvent envW envelopeW s0).workOrders ("ORG#" ++ envelopeW.data.org_id)
        ("STATUS#" ++ envelopeW.data.status ++ "#TS#" ++ envW.normTs envelopeW.data.created_at
          ++ "#WO#" ++ envelopeW.data.id)
      = some (projectionItem envW envelopeW) :=
  ⟨rfl, rfl, (c8_projection_key_scheme envW envelopeW s0 rfl rfl).1⟩

/-- C9: `processEvent` issues only get and put operations, so the set of
keys present in the projection store never shrinks across any sequence
of applies: a key populated before remains populated after. -/
theorem c9_no_projection_delete (env : MatEnv) (es : List EventEnvelope) (s : MatState)
    (pk sk : String) (h : (s.workOrders pk sk).isSome = true) :
    ((applyAll env es s).workOrders pk sk).isSome = true := by
  induction es generalizing s with
  | nil => exact h
  | cons e es ih => exact ih _ (processEvent_mono_workOrders env e s pk sk h)

/-- Witness for C9: a populated key survives applying a further
envelope. -/
theorem c9_no_projection_delete_witness :
    ((processEvent envW envelopeW s0).workOrders (projectionItem envW envelopeW).pk
        (projectionItem envW envelopeW).sk).isSome = true
    ∧ ((applyAll envW [envelopeU, envelopeX2] (processEvent envW envelopeW s0)).workOrders
        (projectionItem envW envelopeW).pk (projectionItem envW envelopeW).sk).isSome = true :=
  ⟨by decide,
   c9_no_projection_delete envW [envelopeU, envelopeX2] (processEvent envW envelopeW s0)
     (projectionItem envW envelopeW).pk (projectionItem envW envelopeW).sk (by decide)⟩

/-- C10 counterexample: two distinct envelopes share the id `"x"`; the
first has an unknown type, so no dedupe row is written for `"x"`, and
the second — a `WorkOrderCreated` envelope — then changes the
projection store, contrary to the claim that only the first of two
envelopes sharing an id ever has an effect on the projection store. -/
theorem c10_shared_id_counterexample :
    envelopeX1 ≠ envelopeX2 ∧ envelopeX1.id = envelopeX2.id
    ∧ (processEvent envW envelopeX2 (processEvent envW envelopeX1 s0)).workOrders
        (projectionItem envW envelopeX2).pk (projectionItem envW envelopeX2).sk
      ≠ (processEvent envW envelopeX1 s0).workOrders
          (projectionItem envW envelopeX2).pk (projectionItem envW envelopeX2).sk := by
  decide

/-- C10 amended: the dedupe decision depends only on `envelope.id` — if
a dedupe row exists for that id, `processEvent` returns with both
stores unchanged whatever the envelope's type, version or data — and of
two distinct envelopes sharing an id, only the first has an effect
provided the first's type is `WorkOrderCreated`, so that a dedupe row
was actually written for the id. -/
theorem c10_dedupe_by_id (env1 env2 : MatEnv) (e1 e2 : EventEnvelope) (s : MatState)
    (r : ProcessedEvent) :
    (s.processed e2.id = some r → processEvent env2 e2 s = s)
    ∧ (e1.type = "WorkOrderCreated" → s.processed e1.id = none → e2.id = e1.id →
        processEvent env2 e2 (processEvent env1 e1 s) = processEvent env1 e1 s) := by
  constructor
  · intro h
    exact processEvent_of_processed env2 e2 s (by rw [h]; rfl)
  · intro ht hn hid
    have hp : (processEvent env1 e1 s).processed e2.id = some (dedupeItem env1 e1) := by
      simp [processEvent, hn, ht, hid]
    exact processEvent_of_processed env2 e2 _ (by rw [hp]; rfl)

/-- Witness for the amended C10: after processing a `WorkOrderCreated`
envelope, redelivering an envelope with the same id is a no-op. -/
theorem c10_dedupe_by_id_witness :
    (processEvent envW envelopeW s0).processed envelopeW.id = some (dedupeItem envW envelopeW)
    ∧ processEvent envW envelopeW (processEvent envW envelopeW s0) = processEvent envW envelopeW s0 :=
  ⟨by decide,
   (c10_dedupe_by_id envW envW envelopeW envelopeW (processEvent envW envelopeW s0)
       (dedupeItem envW envelopeW)).1 (by decide)⟩

/-! Helper lemmas about the Publisher. -/

/-- `insertByOccurred` only rearranges: membership is preserved. -/
theorem mem_insertByOccurred {r x : OutboxEvent} {l : List OutboxEvent} :
    x ∈ insertByOccurred r l ↔ x = r ∨ x ∈ l := by
  induction l with
  | nil => simp [insertByOccurred]
  | cons y ys ih =>
    unfold insertByOccurred
    split
    · simp only [List.mem_cons, ih]
      tauto
    · simp only [List.mem_cons]

/-- `sortByOccurred` only rearranges: membership is preserved. -/
theorem mem_sortByOccurred {x : OutboxEvent} {l : List OutboxEvent} :
    x ∈ sortByOccurred l ↔ x ∈ l := by
  induction l with
  | nil => simp [sortByOccurred]
  | cons y ys ih =>
    unfold sortByOccurred
    rw [mem_insertByOccurred]
    simp [ih, eq_comm]

/-- A selected row is an outbox row that is still unpublished. -/
theorem mem_selectUnpublished {row : OutboxEvent} {outbox : List OutboxEvent}
    (h : row ∈ selectUnpublished outbox) :
    row ∈ outbox ∧ row.published_at = none := by
  unfold selectUnpublished at h
  have h2 := List.take_subset _ _ h
  rw [mem_sortByOccurred, List.mem_filter] at h2
  exact ⟨h2.1, Option.isNone_iff_eq_none.mp h2.2⟩

/-- `markPublished` touches only `published_at`: the ids are unchanged. -/
theorem markPublished_ids (t : Nat) (i : String) (l : List OutboxEvent) :
    (markPublished t i l).map (fun r => r.id) = l.map (fun r => r.id) := by
  induction l with
  | nil => rfl
  | cons x xs ih =>
    simp only [markPublished, List.map_cons] at ih ⊢
    rw [ih]
    split <;> rfl

/-- `relayStep` never adds or removes outbox rows: ids are unchanged. -/
theorem relayStep_ids (env : PubEnv) (s : PubState) (row : OutboxEvent) :
    (relayStep env s row).outbox.map (fun r => r.id) = s.outbox.map (fun r => r.id) := by
  unfold relayStep
  split
  · rfl
  · split
    · rfl
    · exact markPublished_ids _ _ _

/-- Outbox ids are unchanged across the whole per-row loop. -/
theorem foldl_relay_ids (env : PubEnv) (l : List OutboxEvent) (s : PubState) :
    ((l.foldl (relayStep env) s).outbox.map (fun r => r.id)) = s.outbox.map (fun r => r.id) := by
  induction l generalizing s with
  | nil => rfl
  | cons x xs ih => rw [List.foldl_cons, ih, relayStep_ids]

/-- One loop iteration appends the row's envelope to the bus exactly
when the SNS send did not throw. -/
theorem relayStep_bus (env : PubEnv) (s : PubState) (row : OutboxEvent) :
    (relayStep env s row).bus
      = s.bus ++ (if env.snsFails row.id then [] else [(mkEnvelope env row, row.event_type)]) := by
  unfold relayStep
  split
  · next h => simp [h]
  · next h =>
    simp only [h, Bool.false_eq_true, if_false]
    split <;> rfl

/-- Across the loop, the bus grows by exactly the envelopes of the rows
whose SNS send succeeded, in order. -/
theorem foldl_relay_bus (env : PubEnv) (l : List OutboxEvent) (s : PubState) :
    (l.foldl (relayStep env) s).bus
      = s.bus ++ (l.filter (fun r => !env.snsFails r.id)).map
          (fun r => (mkEnvelope env r, r.event_type)) := by
  induction l generalizing s with
  | nil => simp
  | cons x xs ih =>
    rw [List.foldl_cons, ih, relayStep_bus, List.filter_cons]
    by_cases hx : env.snsFails x.id
    · simp [hx]
    · simp [hx]

/-- A row already published with `some` stays `some` through one loop
iteration. -/
theorem published_persists (env : PubEnv) (s : PubState) (row : OutboxEvent) (i : String)
    (h : ∃ r' ∈ s.outbox, r'.id = i ∧ r'.published_at.isSome = true) :
    ∃ r' ∈ (relayStep env s row).outbox, r'.id = i ∧ r'.published_at.isSome = true := by
  obtain ⟨r', hmem, hid, hsome⟩ := h
  unfold relayStep
  split
  · exact ⟨r', hmem, hid, hsome⟩
  · split
    · exact ⟨r', hmem, hid, hsome⟩
    · simp only [markPublished]
      refine ⟨_, List.mem_map_of_mem _ hmem, ?_, ?_⟩
      · split <;> simp [hid]
      · split <;> simp [hsome]

/-- A row already published with `some` stays `some` through the loop. -/
theorem published_persists_foldl (env : PubEnv) (l : List OutboxEvent) (s : PubState) (i : String)
    (h : ∃ r' ∈ s.outbox, r'.id = i ∧ r'.published_at.isSome = true) :
    ∃ r' ∈ (l.foldl (relayStep env) s).outbox, r'.id = i ∧ r'.published_at.isSome = true := by
  induction l generalizing s with
  | nil => exact h
  | cons x xs ih => exact ih _ (published_persists env s x i h)

/-- When both the send and the UPDATE for a row succeed, the iteration
marks that row's id published. -/
theorem relayStep_marks (env : PubEnv) (s : PubState) (row : OutboxEvent)
    (hsns : env.snsFails row.id = false) (hupd : env.updateFails row.id = false)
    (h : ∃ r' ∈ s.outbox, r'.id = row.id) :
    ∃ r' ∈ (relayStep env s row).outbox, r'.id = row.id ∧ r'.published_at.isSome = true := by
  obtain ⟨r', hmem, hid⟩ := h
  unfold relayStep
  simp only [hsns, hupd, Bool.false_eq_true, if_false]
  simp only [markPublished]
  refine ⟨_, List.mem_map_of_mem _ hmem, ?_, ?_⟩
  · rw [if_pos hid]
    exact hid
  · rw [if_pos hid]
    rfl

/-- A row of the batch whose own send and UPDATE succeed ends the loop
marked published, whatever happens to the other rows. -/
theorem publish_marks_foldl (env : PubEnv) (l : List OutboxEvent) (s : PubState)
    (row : OutboxEvent) (hrow : row ∈ l)
    (hsns : env.snsFails row.id = false) (hupd : env.updateFails row.id = false)
    (hid : row.id ∈ s.outbox.map (fun r => r.id)) :
    ∃ r' ∈ (l.foldl (relayStep env) s).outbox, r'.id = row.id ∧ r'.published_at.isSome = true := by
  induction l generalizing s with
  | nil => cases hrow
  | cons x xs ih =>
    rw [List.foldl_cons]
    rcases List.mem_cons.mp hrow with hx | hxs
    · subst hx
      apply published_persists_foldl
      apply relayStep_marks env s row hsns hupd
      obtain ⟨a, ha, hai⟩ := List.mem_map.mp hid
      exact ⟨a, ha, hai⟩
    · exact ih (relayStep env s x) hxs (by rw [relayStep_ids]; exact hid)

/-- An iteration for a row with a different id (or whose send or UPDATE
throws) leaves every already-published value untouched. -/
theorem relayStep_keeps_published (env : PubEnv) (s : PubState) (row : OutboxEvent)
    (i : String) (t : Nat) (hrow : row.id ≠ i)
    (h : ∀ r' ∈ s.outbox, r'.id = i → r'.published_at = some t) :
    ∀ r' ∈ (relayStep env s row).outbox, r'.id = i → r'.published_at = some t := by
  intro r' hmem hid
  unfold relayStep at hmem
  split at hmem
  · exact h r' hmem hid
  · split at hmem
    · exact h r' hmem hid
    · simp only [markPublished, List.mem_map] at hmem
      obtain ⟨x, hx, rfl⟩ := hmem
      by_cases hxi : x.id = row.id
      · rw [if_pos hxi] at hid
        exact absurd (hxi ▸ hid) hrow
      · rw [if_neg hxi] at hid ⊢
        exact h x hx hid

/-- The published value of a row is untouched by the loop as long as no
row of the batch carries its id. -/
theorem foldl_keeps_published (env : PubEnv) (l : List OutboxEvent) (s : PubState)
    (i : String) (t : Nat) (hl : ∀ row ∈ l, row.id ≠ i)
    (h : ∀ r' ∈ s.outbox, r'.id = i → r'.published_at = some t) :
    ∀ r' ∈ (l.foldl (relayStep env) s).outbox, r'.id = i → r'.published_at = some t := by
  induction l generalizing s with
  | nil => exact h
  | cons x xs ih =>
    exact ih _ (fun row hr => hl row (List.mem_cons_of_mem _ hr))
      (relayStep_keeps_published env s x i t (hl x (List.mem_cons_self _ _)) h)

/-- A whole publisher invocation never changes an already-set
`published_at` value: published rows are not selected, so no UPDATE
targets their id. -/
theorem handler_keeps_published (env : PubEnv) (s : PubState) (i : String) (t : Nat)
    (h : ∀ r' ∈ s.outbox, r'.id = i → r'.published_at = some t) :
    ∀ r' ∈ (handler env s).1.outbox, r'.id = i → r'.published_at = some t := by
  have hsel : ∀ row ∈ selectUnpublished s.outbox, row.id ≠ i := by
    intro row hrow hi
    obtain ⟨hmemo, hnone⟩ := mem_selectUnpublished hrow
    rw [h row hmemo hi] at hnone
    cases hnone
  unfold handler
  by_cases hne : (selectUnpublished s.outbox).isEmpty
  · simpa [hne] using h
  · simpa [hne] using foldl_keeps_published env _ s i t hsel h

/-- An already-set `published_at` value survives any sequence of
publisher invocations. -/
theorem runAll_keeps_published (envs : List PubEnv) (s : PubState) (i : String) (t : Nat)
    (h : ∀ r' ∈ s.outbox, r'.id = i → r'.published_at = some t) :
    ∀ r' ∈ (runAll envs s).outbox, r'.id = i → r'.published_at = some t := by
  induction envs generalizing s with
  | nil => exact h
  | cons env envs ih => exact ih _ (handler_keeps_published env s i t h)

/-- An iteration that is not a full success for id `i` keeps every row
with id `i` unpublished. -/
theorem relayStep_keeps_unpublished (env : PubEnv) (s : PubState) (row : OutboxEvent)
    (i : String)
    (hcase : row.id ≠ i ∨ env.snsFails row.id = true ∨ env.updateFails row.id = true)
    (h : ∀ r' ∈ s.outbox, r'.id = i → r'.published_at = none) :
    ∀ r' ∈ (relayStep env s row).outbox, r'.id = i → r'.published_at = none := by
  intro r' hmem hid
  unfold relayStep at hmem
  split at hmem
  · exact h r' hmem hid
  · next hsns =>
    split at hmem
    · exact h r' hmem hid
    · next hupd =>
      have hrowi : row.id ≠ i := by
        rcases hcase with h1 | h2 | h3
        · exact h1
        · exact absurd h2 (by simpa using hsns)
        · exact absurd h3 (by simpa using hupd)
      simp only [markPublished, List.mem_map] at hmem
      obtain ⟨x, hx, rfl⟩ := hmem
      by_cases hxi : x.id = row.id
      · rw [if_pos hxi] at hid
        exact absurd (hxi ▸ hid) hrowi
      · rw [if_neg hxi] at hid ⊢
        exact h x hx hid

/-- If a row with id `i` went from unpublished to published during the
loop, some row of the batch with that id had a successful SNS send, and
its envelope is on the bus at the end of the loop. -/
theorem published_source_foldl (env : PubEnv) (l : List OutboxEvent) (s : PubState)
    (i : String)
    (hun : ∀ r' ∈ s.outbox, r'.id = i → r'.published_at = none)
    (hex : ∃ r' ∈ (l.foldl (relayStep env) s).outbox, r'.id = i ∧ r'.published_at ≠ none) :
    ∃ row ∈ l, row.id = i ∧ env.snsFails row.id = false
      ∧ (mkEnvelope env row, row.event_type) ∈ (l.foldl (relayStep env) s).bus := by
  induction l generalizing s with
  | nil =>
    obtain ⟨r', hm, hid, hne⟩ := hex
    exact absurd (hun r' hm hid) hne
  | cons x xs ih =>
    by_cases hA : x.id = i ∧ env.snsFails x.id = false ∧ env.updateFails x.id = false
    · obtain ⟨h1, h2, h3⟩ := hA
      refine ⟨x, List.mem_cons_self _ _, h1, h2, ?_⟩
      rw [List.foldl_cons, foldl_relay_bus, relayStep_bus]
      simp [h2]
    · have hdis : x.id ≠ i ∨ env.snsFails x.id = true ∨ env.updateFails x.id = true := by
        by_cases h1 : x.id = i
        · by_cases h2 : env.snsFails x.id
          · exact Or.inr (Or.inl h2)
          · by_cases h3 : env.updateFails x.id
            · exact Or.inr (Or.inr h3)
            · exact absurd ⟨h1, by simpa using h2, by simpa using h3⟩ hA
        · exact Or.inl h1
      rw [List.foldl_cons] at hex
      obtain ⟨row, hr, hrid, hsns, hbus⟩ :=
        ih (relayStep env s x) (relayStep_keeps_unpublished env s x i hdis hun) hex
      exact ⟨row, List.mem_cons_of_mem _ hr, hrid, hsns, by rw [List.foldl_cons]; exact hbus⟩

/-- Two outbox rows with the same id are the same row when ids are
nodup. -/
theorem outbox_id_inj {l : List OutboxEvent}
    (h : (l.map (fun r => r.id)).Nodup) {x y : OutboxEvent}
    (hx : x ∈ l) (hy : y ∈ l) (hid : x.id = y.id) : x = y := by
  induction l with
  | nil => cases hx
  | cons a as ih =>
    rw [List.map_cons, List.nodup_cons] at h
    rcases List.mem_cons.mp hx with rfl | hx' <;> rcases List.mem_cons.mp hy with rfl | hy'
    · rfl
    · exact absurd (List.mem_map.mpr ⟨y, hy', hid.symm⟩) h.1
    · exact absurd (List.mem_map.mpr ⟨x, hx', hid⟩) h.1
    · exact ih h.2 hx' hy'

/-! Claim theorems about the Publisher. -/

/-- C2: for an outbox row, `published_at` transitions null → non-null at
most once and is never reset: once it holds a value, that exact value
survives any sequence of publisher invocations; and it is set only
after a confirmed successful hand-off — if a run turns the row's
`published_at` non-null, the SNS send for that row did not throw and
the row's envelope is on the bus at the end of the run. -/
theorem c2_published_at_transition (s : PubState)
    (hnodup : (s.outbox.map (fun r => r.id)).Nodup)
    (r : OutboxEvent) (hr : r ∈ s.outbox) :
    (∀ (envs : List PubEnv) (t : Nat), r.published_at = some t →
       ∀ r' ∈ (runAll envs s).outbox, r'.id = r.id → r'.published_at = some t)
    ∧ (∀ env : PubEnv, r.published_at = none →
       ∀ r' ∈ (handler env s).1.outbox, r'.id = r.id → r'.published_at ≠ none →
         env.snsFails r.id = false
         ∧ (mkEnvelope env r, r.event_type) ∈ (handler env s).1.bus) := by
  constructor
  · intro envs t hpub
    apply runAll_keeps_published
    intro r' hm hid
    rw [outbox_id_inj hnodup hm hr hid]
    exact hpub
  · intro env hnone r' hm hid hne
    have hun : ∀ r'' ∈ s.outbox, r''.id = r.id → r''.published_at = none := by
      intro r'' hm' hid'
      rw [outbox_id_inj hnodup hm' hr hid']
      exact hnone
    by_cases hsel : (selectUnpublished s.outbox).isEmpty
    · exfalso
      apply hne
      have hid2 : (handler env s).1 = s := by simp [handler, hsel]
      rw [hid2] at hm
      exact hun r' hm hid
    · have hh : (handler env s).1 = (selectUnpublished s.outbox).foldl (relayStep env) s := by
        simp [handler, hsel]
      rw [hh] at hm ⊢
      obtain ⟨row, hrowmem, hrowid, hsns, hbus⟩ :=
        published_source_foldl env (selectUnpublished s.outbox) s r.id hun ⟨r', hm, hid, hne⟩
      have hrr : row = r :=
        outbox_id_inj hnodup (mem_selectUnpublished hrowmem).1 hr hrowid
      rw [hrr] at hsns hbus
      exact ⟨hsns, hbus⟩

/-- Witness for C2: a published row (`published_at = some 5`) is
untouched by a full publisher run that publishes its neighbour. -/
theorem c2_published_at_transition_witness :
    (pubS1.outbox.map (fun r => r.id)).Nodup
    ∧ rowP ∈ pubS1.outbox
    ∧ rowP.published_at = some 5
    ∧ rowP ∈ (runAll [pubEnvOk] pubS1).outbox
    ∧ rowP.published_at = some 5 :=
  ⟨by decide, by decide, by decide, by decide,
   (c2_published_at_transition pubS1 (by decide) rowP (by decide)).1 [pubEnvOk] 5 (by decide)
     rowP (by decide) rfl⟩

/-- C5: per-record failure isolation in the publisher — a selected row
whose own SNS send and UPDATE succeed is sent (its envelope is on the
bus) and marked published, whatever failures the other rows of the
batch hit; the invocation itself returns normally (the per-row `catch`
only logs). -/
theorem c5_batch_isolation (env : PubEnv) (s : PubState) (row : OutboxEvent)
    (hmem : row ∈ selectUnpublished s.outbox)
    (hsns : env.snsFails row.id = false) (hupd : env.updateFails row.id = false) :
    (∃ r' ∈ (handler env s).1.outbox, r'.id = row.id ∧ r'.published_at.isSome = true)
    ∧ (mkEnvelope env row, row.event_type) ∈ (handler env s).1.bus := by
  have hne : (selectUnpublished s.outbox).isEmpty = false := by
    cases h : selectUnpublished s.outbox with
    | nil => rw [h] at hmem; cases hmem
    | cons a l => rfl
  have hh : (handler env s).1 = (selectUnpublished s.outbox).foldl (relayStep env) s := by
    simp [handler, hne]
  constructor
  · rw [hh]
    apply publish_marks_foldl env _ s row hmem hsns hupd
    exact List.mem_map_of_mem _ (mem_selectUnpublished hmem).1
  · rw [hh, foldl_relay_bus]
    apply List.mem_append_right
    apply List.mem_map_of_mem
    rw [List.mem_filter]
    exact ⟨hmem, by simp [hsns]⟩

/-- Witness for C5: with the send for row `"a"` throwing, row `"b"` is
still sent and marked published. -/
theorem c5_batch_isolation_witness :
    rowB ∈ selectUnpublished pubS0.outbox
    ∧ pubEnvFail.snsFails rowB.id = false
    ∧ pubEnvFail.updateFails rowB.id = false
    ∧ ((∃ r' ∈ (handler pubEnvFail pubS0).1.outbox,
          r'.id = rowB.id ∧ r'.published_at.isSome = true)
       ∧ (mkEnvelope pubEnvFail rowB, rowB.event_type) ∈ (handler pubEnvFail pubS0).1.bus) :=
  ⟨by decide, by decide, by decide,
   c5_batch_isolation pubEnvFail pubS0 rowB (by decide) (by decide) (by decide)⟩

/-- C6 counterexample: the handler's return value is identical for a run
in which only one of two selected records was published and for a run
in which both were — it is `statusCode 200` with `"Processed 2 events"`
either way, carrying the number of records selected, not a
`publishedCount`, and no `failedIds`. -/
theorem c6_return_shape_counterexample :
    (handler pubEnvFail pubS0).2 = (handler pubEnvOk pubS0).2
    ∧ ((handler pubEnvFail pubS0).1.outbox.filter (fun r => r.published_at.isSome)).length = 1
    ∧ ((handler pubEnvOk pubS0).1.outbox.filter (fun r => r.published_at.isSome)).length = 2
    ∧ (handler pubEnvFail pubS0).2 = { statusCode := 200, message := some "Processed 2 events" } := by
  decide

/-- C6 amended: every invocation that reaches the batch-select step
returns `{statusCode: 204}` when no unpublished record is selected, and
otherwise `{statusCode: 200, message: "Processed N events"}` where `N`
is the number of records selected — regardless of per-record failures,
for which it never raises; it reports neither a published count nor the
failed ids. -/
theorem c6_handler_return_shape (env : PubEnv) (s : PubState) :
    (selectUnpublished s.outbox = [] →
      (handler env s).2 = { statusCode := 204, message := none })
    ∧ (selectUnpublished s.outbox ≠ [] →
      (handler env s).2
        = { statusCode := 200
            message := some ("Processed " ++ toString (selectUnpublished s.outbox).length
                              ++ " events") }) := by
  constructor
  · intro h
    simp [handler, h]
  · intro h
    have hne : (selectUnpublished s.outbox).isEmpty = false := by
      cases hc : selectUnpublished s.outbox with
      | nil => exact absurd hc h
      | cons a l => rfl
    simp [handler, hne]

/-- Witness for the amended C6 at a concrete two-row outbox with one
failing send. -/
theorem c6_handler_return_shape_witness :
    selectUnpublished pubS0.outbox ≠ []
    ∧ (handler pubEnvFail pubS0).2
        = { statusCode := 200
            message := some ("Processed " ++ toString (selectUnpublished pubS0.outbox).length
                              ++ " events") } :=
  ⟨by decide, (c6_handler_return_shape pubEnvFail pubS0).2 (by decide)⟩

/-- C7: the envelope handed to the bus is a pure projection of the
outbox row — `id`, `type = event_type`, `version`,
`occurredAt = toISO occurred_at`, `aggregateId`, `aggregateType`,
`data = payload`, `traceId = trace_id`, and nothing else (`PubEnvelope`
has exactly these eight fields) — and every envelope a run adds to the
bus is `mkEnvelope` of one of the selected rows, paired with its
`event_type` attribute. -/
theorem c7_envelope_projection (env : PubEnv) (row : OutboxEvent) (s : PubState) :
    mkEnvelope env row
      = { id := row.id
          type := row.event_type
          version := row.version
          occurredAt := env.toISO row.occurred_at
          aggregateId := row.aggregate_id
          aggregateType := row.aggregate_type
          data := row.payload
          traceId := row.trace_id }
    ∧ (handler env s).1.bus
        = s.bus ++ ((selectUnpublished s.outbox).filter (fun r => !env.snsFails r.id)).map
            (fun r => (mkEnvelope env r, r.event_type)) := by
  refine ⟨rfl, ?_⟩
  by_cases hsel : (selectUnpublished s.outbox).isEmpty
  · have hnil : selectUnpublished s.outbox = [] := by
      cases hc : selectUnpublished s.outbox with
      | nil => rfl
      | cons a l => rw [hc] at hsel; cases hsel
    simp [handler, hsel, hnil]
  · have hh : (handler env s).1 = (selectUnpublished s.outbox).foldl (relayStep env) s := by
      simp [handler, hsel]
    rw [hh, foldl_relay_bus]

end EventDriven
